import Mathlib

/-!
Verification of the bar-chart pipeline of `plottingtools/plot.py` (the `bars`
function).  The embedding follows the source line by line: numeric numpy
arrays become `List ℚ`, the `labels` argument after `np.array(labels)`
becomes `Option (List String)` where `Option.none` stands for the
zero-dimensional array produced by `np.array(None)`, fallible numpy and
Python operations return `Except Err`, and every rendering call into
matplotlib is recorded as an `Event` so that statements about "before any
rendering side effect" are statements about the event trace.
-/

namespace PlotTools

/-- Errors that can escape a call to `bars`.  Each constructor corresponds to
a concrete raise site: `configurationError` to `util.check_parameter`
rejecting a parameter, `labelMismatchError` to the
`ValueError('len(labels) != len(data)')` at plot.py:108, `shapeError` to a
numpy broadcast failure in `data / np.array(scale_by)`, `indexError` to numpy
fancy-indexing with an out-of-range index (or indexing a 0-d array),
`typeErrorUnsized` to `len()` of the 0-d array `np.array(None)`,
`nameError` to an unbound local variable, `maxOfEmpty` to a max reduction
over an empty array, and `minMaxOfEmpty` to Python `min`/`max` of an empty
sequence. -/
inductive Err where
  | configurationError (param : String)
  | labelMismatchError
  | shapeError
  | indexError
  | typeErrorUnsized
  | nameError (name : String)
  | maxOfEmpty
  | minMaxOfEmpty
  deriving DecidableEq

/-- The `sort_by` argument of `bars`: Python `None`, a string, an explicit
index sequence, or a value of some other, unrecognized type. -/
inductive SortBy where
  | none
  | str (s : String)
  | seq (idx : List Int)
  | invalid
  deriving DecidableEq

/-- The `scale_by` argument of `bars`: Python `None`, a scalar, or a
sequence (which `np.array` turns into a 1-d array). -/
inductive ScaleBy where
  | none
  | scalar (c : ℚ)
  | seq (s : List ℚ)
  deriving DecidableEq

/-- `scale_by is not None` as tested at plot.py:122 and plot.py:171. -/
def ScaleBy.isNone : ScaleBy → Bool
  | ScaleBy.none => true
  | _ => false

/-- The `bar_label_format` argument of `bars`: Python `None`, a function, or
a value of some other, unrecognized type. -/
inductive BarLabelFormat where
  | none
  | fn (f : ℚ → String)
  | invalid

/-- One rendering side effect: a call into matplotlib made by `bars`, in
program order.  `figure` is `plt.figure` (plot.py:144), `bar` one
`ax.bar(offsets[i], data[i], bar_width)` call, `barSeries` the single
`ax.bar(offsets, data, bar_width)` call of the non-multicolor branch,
`plotLine` the dashed max-value line, `text` one `plt.text` call, and the
rest the axis/figure configuration calls of plot.py:182-209. -/
inductive Event where
  | figure (figsize : ℚ × ℚ)
  | bar (x : ℚ) (height : ℚ) (width : ℚ)
  | barSeries (xs : List ℚ) (heights : List ℚ) (width : ℚ)
  | plotLine (xs : List ℚ) (ys : List ℚ)
  | text (x : ℚ) (y : ℚ) (s : String)
  | setYlim (lo : ℚ) (hi : ℚ)
  | setXlim (lo : ℚ) (hi : ℚ)
  | setXticks (xs : List ℚ)
  | tickParams (labelsize : ℚ)
  | setXtickLabels (ls : List String)
  | setRotation (deg : ℚ)
  | legend
  | suptitle (t : String) (fontsize : ℚ)
  | savefig (name : String)
  | showFig
  deriving DecidableEq

/-- All arguments of `bars` (plot.py:21-41) that take part in the pipeline,
with the source defaults.  `data` is assumed to be a proper sequence of
numbers; `labels` is the value after `np.array(labels)`: `Option.none`
stands for the 0-d array produced when the caller omits `labels`.
The Python parameter `show` is called `showFlag` here because `show` is a
Lean keyword; `debug` is omitted (it only triggers an interactive
debugger). -/
structure Config where
  data : List ℚ
  labels : Option (List String) := Option.none
  bar_width : ℚ := 3 / 4
  figsize : ℚ × ℚ := (12, 8)
  title : String := ""
  ylim : Option (ℚ × ℚ) := Option.none
  max_val_pad : ℚ := 1 / 10
  sort_by : SortBy := SortBy.none
  show_bottom_labels : Bool := true
  show_legend : Bool := false
  show_max_val : Bool := false
  showFlag : Bool := true
  save : Bool := false
  save_name : Option String := Option.none
  scale_by : ScaleBy := ScaleBy.none
  show_bar_labels : Bool := false
  bar_label_format : BarLabelFormat := BarLabelFormat.none
  multicolor : Bool := true
  show_as_percent : Bool := false

/-- Python `max` over a list (and numpy `arr.max()` for a 1-d array):
`Option.none` on an empty sequence. -/
def pythonMax : List ℚ → Option ℚ
  | [] => Option.none
  | x :: xs => some (xs.foldl max x)

/-- Python `max` over a list of naturals. -/
def pythonMaxNat : List ℕ → Option ℕ
  | [] => Option.none
  | x :: xs => some (xs.foldl max x)

/-- Python `min` over a list of naturals. -/
def pythonMinNat : List ℕ → Option ℕ
  | [] => Option.none
  | x :: xs => some (xs.foldl min x)

/-- numpy indexing of a 1-d array with one (possibly negative) integer
index. -/
def npGet (l : List α) (i : Int) : Option α :=
  let n : Int := l.length
  let j := if i < 0 then i + n else i
  if 0 ≤ j ∧ j < n then l.get? j.toNat else Option.none

/-- numpy fancy indexing `l[idx]` of a 1-d array with an integer index
array: the element at each index in turn, `indexError` when one is out of
range. -/
def npTake (l : List α) : List Int → Except Err (List α)
  | [] => Except.ok []
  | i :: rest =>
    match npGet l i with
    | Option.none => Except.error Err.indexError
    | some v =>
      match npTake l rest with
      | Except.error e => Except.error e
      | Except.ok r => Except.ok (v :: r)

/-- Fancy indexing of the `labels` array (plot.py:102).  The 0-d array
obtained from `np.array(None)` cannot be indexed with a 1-d index array
(numpy: "too many indices for array"). -/
def npTakeLabels (labels : Option (List String)) (idx : List Int) :
    Except Err (Option (List String)) :=
  match labels with
  | Option.none => Except.error Err.indexError
  | some ls => (npTake ls idx).map some

/-- Python `len(labels)` on the labels array: `len()` of the unsized 0-d
array `np.array(None)` raises `TypeError`. -/
def npLen (labels : Option (List String)) : Except Err ℕ :=
  match labels with
  | Option.none => Except.error Err.typeErrorUnsized
  | some ls => Except.ok ls.length

/-- Insert index `i` into an index list already sorted by value, after all
indices holding a value `≤ d[i]` (stable ascending order). -/
def insertIdx (d : List ℚ) (i : ℕ) : List ℕ → List ℕ
  | [] => [i]
  | j :: rest =>
      if d.getD j 0 ≤ d.getD i 0 then j :: insertIdx d i rest
      else i :: j :: rest

/-- `np.argsort(data)` (plot.py:96): the permutation sorting `data`
ascending by value. -/
def argsort (d : List ℚ) : List Int :=
  ((List.range d.length).foldl (fun acc i => insertIdx d i acc) []).map Int.ofNat

/-- Modelled from the spec: `util.check_parameter(sort_by, 'sort_by', ...)`
(plot.py:89) — `util.py` is not under `src/`.  Per the spec the validation
machinery duck-types the value against
`(None, 'ascending', 'descending', tuple, list, np.ndarray)` and fails with
a `ConfigurationError` when the value is neither a recognized policy
string, `None`, nor a sequence. -/
def checkSortBy : SortBy → Except Err Unit
  | SortBy.none => Except.ok ()
  | SortBy.seq _ => Except.ok ()
  | SortBy.str s =>
      if s = "ascending" ∨ s = "descending" then Except.ok ()
      else Except.error (Err.configurationError ("sort_by"))
  | SortBy.invalid => Except.error (Err.configurationError ("sort_by"))

/-- Modelled from the spec: `util.check_parameter(labels, 'labels', ...)`
(plot.py:105) — `util.py` is not under `src/`.  At this point `labels` is
always an `np.ndarray` (the result of `np.array(labels)` at plot.py:86, a
0-d array when the caller passed `None`), and `np.ndarray` is among the
accepted types, so the check always passes. -/
def checkLabels (_labels : Option (List String)) : Except Err Unit :=
  Except.ok ()

/-- Modelled from the spec: `util.check_parameter(bar_label_format, ...)`
(plot.py:163) — `util.py` is not under `src/`.  Accepts `None` or a
function; any other value fails with a `ConfigurationError`. -/
def checkBarLabelFormat : BarLabelFormat → Except Err Unit
  | BarLabelFormat.none => Except.ok ()
  | BarLabelFormat.fn _ => Except.ok ()
  | BarLabelFormat.invalid => Except.error (Err.configurationError ("bar_label_format"))

/-- The sort block of `bars` (plot.py:90-102): when `sort_by` is given,
compute the index order (argsort for a policy string, reversed for
`'descending'`; the explicit sequence itself otherwise) and fancy-index
both `data` and `labels` with it — `data` first, as in the source. -/
def reorderStage (data : List ℚ) (labels : Option (List String)) :
    SortBy → Except Err (List ℚ × Option (List String))
  | SortBy.none => Except.ok (data, labels)
  | SortBy.str s =>
      let order := if s.toLower = "descending" then (argsort data).reverse else argsort data
      match npTake data order with
      | Except.error e => Except.error e
      | Except.ok d =>
        match npTakeLabels labels order with
        | Except.error e => Except.error e
        | Except.ok ls => Except.ok (d, ls)
  | SortBy.seq idx =>
      match npTake data idx with
      | Except.error e => Except.error e
      | Except.ok d =>
        match npTakeLabels labels idx with
        | Except.error e => Except.error e
        | Except.ok ls => Except.ok (d, ls)
  | SortBy.invalid => Except.error (Err.configurationError ("sort_by"))

/-- The bottom-label block of `bars` (plot.py:106-119).  The guard
`labels is not None` of the source is always true, because `labels` is the
result of `np.array(labels)` (an ndarray, never the `None` object), so the
branch is taken exactly when `show_bottom_labels` is set.  Inside it,
`len(labels)` raises on the 0-d array, a length mismatch with `data` raises
`ValueError('len(labels) != len(data)')`, and otherwise each label is
suffixed with its pre-scaling count and the rotation is 45 degrees for more
than 7 labels, 0 otherwise. -/
def bottomStage (show_bottom : Bool) (dataR : List ℚ)
    (labelsR : Option (List String)) :
    Except Err (Option (List String) × Option ℚ) :=
  if show_bottom then
    match npLen labelsR with
    | Except.error e => Except.error e
    | Except.ok n =>
      if n = dataR.length then
        let ls := labelsR.getD []
        let bl := (List.range n).map
          (fun i => ls.getD i "" ++ "\nN = " ++ toString (dataR.getD i 0))
        Except.ok (some bl, some (if 7 < n then 45 else 0))
      else Except.error Err.labelMismatchError
  else Except.ok (Option.none, Option.none)

/-- 1-d numpy broadcasting of `d / s` for two arrays: element-wise when the
lengths agree, a length-1 operand is stretched to the other length, and any
other combination fails to broadcast. -/
def broadcastDiv (d s : List ℚ) : Except Err (List ℚ) :=
  if d.length = s.length then Except.ok (List.zipWith (fun a b => a / b) d s)
  else if s.length = 1 then Except.ok (d.map (fun a => a / s.headD 0))
  else if d.length = 1 then Except.ok (s.map (fun b => d.headD 0 / b))
  else Except.error Err.shapeError

/-- The normalization block of `bars` (plot.py:122-126): when `scale_by` is
given, `data = data / np.array(scale_by)` (a 0-d array for a scalar, a 1-d
array — hence broadcasting — for a sequence) and `max_val = 1`; otherwise
`max_val = data.max()`, which raises on an empty array. -/
def scaleStage (dataR : List ℚ) : ScaleBy → Except Err (List ℚ × ℚ)
  | ScaleBy.none =>
      match pythonMax dataR with
      | some m => Except.ok (dataR, m)
      | Option.none => Except.error Err.maxOfEmpty
  | ScaleBy.scalar c => Except.ok (dataR.map (fun a => a / c), 1)
  | ScaleBy.seq s =>
      match broadcastDiv dataR s with
      | Except.error e => Except.error e
      | Except.ok d => Except.ok (d, 1)

/-- The percent block of `bars` (plot.py:137-140): when `show_as_percent`
is set, `data *= 100` and a caller-supplied `ylim` becomes
`(ylim[0] * 100, ylim[1] * 100)`. -/
def percentStage (dataS : List ℚ) (ylim : Option (ℚ × ℚ)) (percent : Bool) :
    List ℚ × Option (ℚ × ℚ) :=
  if percent then
    (dataS.map (fun a => a * 100), ylim.map (fun ab => (ab.1 * 100, ab.2 * 100)))
  else (dataS, ylim)

/-- Everything `bars` has computed by the end of plot.py:140, just before
the first rendering call (`plt.figure` at plot.py:144): the reordered data
and labels, the bottom labels and their rotation, the scaled data and the
`max_val` reference, the x offsets, and the percent-converted data and
y-limits. -/
structure Pre where
  dataR : List ℚ
  labels : List String
  bottomLabels : Option (List String)
  rotation : Option ℚ
  dataS : List ℚ
  maxVal : ℚ
  offsets : List ℕ
  dataP : List ℚ
  ylimAdj : Option (ℚ × ℚ)
  deriving DecidableEq

/-- The pure prefix of `bars` (plot.py:85-140), in source order: validate
`sort_by`, reorder, validate `labels` (vacuous), build bottom labels,
scale, compute `offsets = list(range(len(labels)))`, convert to percent.
Every failure here happens before any rendering side effect. -/
def preprocess (cfg : Config) : Except Err Pre :=
  match checkSortBy cfg.sort_by with
  | Except.error e => Except.error e
  | Except.ok _ =>
  match reorderStage cfg.data cfg.labels cfg.sort_by with
  | Except.error e => Except.error e
  | Except.ok (dataR, labelsR) =>
  match checkLabels labelsR with
  | Except.error e => Except.error e
  | Except.ok _ =>
  match bottomStage cfg.show_bottom_labels dataR labelsR with
  | Except.error e => Except.error e
  | Except.ok (bottomLabels, rotation) =>
  match scaleStage dataR cfg.scale_by with
  | Except.error e => Except.error e
  | Except.ok (dataS, maxVal) =>
  match npLen labelsR with
  | Except.error e => Except.error e
  | Except.ok n =>
  let offsets := List.range n
  let p := percentStage dataS cfg.ylim cfg.show_as_percent
  Except.ok { dataR := dataR, labels := labelsR.getD [],
              bottomLabels := bottomLabels, rotation := rotation,
              dataS := dataS, maxVal := maxVal, offsets := offsets,
              dataP := p.1, ylimAdj := p.2 }

/-- Everything observable about a completed call to `bars`: the data after
each transformation, the `max_val` reference of plot.py:122-126, the
geometry handed to matplotlib (y-limits, x-limits, offsets, rotation), the
y-position of the dashed max-value line when drawn, the per-bar text
annotations when drawn, and the full ordered trace of rendering calls. -/
structure Output where
  dataReordered : List ℚ
  dataScaled : List ℚ
  dataFinal : List ℚ
  maxValRef : ℚ
  offsets : List ℕ
  bottomLabels : Option (List String)
  labelRotation : Option ℚ
  ylimFinal : ℚ × ℚ
  xlim : ℚ × ℚ
  maxValLine : Option ℚ
  barTexts : List (ℚ × ℚ × String)
  trace : List Event
  deriving DecidableEq

/-- The multicolor bar loop of plot.py:147-148:
`ax.bar(offsets[i], data[i], bar_width)` for `i in range(len(labels))`.
`data[i]` is numpy indexing and raises `IndexError` when `labels` is longer
than `data`; an error carries the bar events already emitted. -/
def drawBarsEvents (offs : List ℕ) (data : List ℚ) (w : ℚ) :
    List ℕ → Except (Err × List Event) (List Event)
  | [] => Except.ok []
  | i :: rest =>
    match data[i]? with
    | Option.none => Except.error (Err.indexError, [])
    | some v =>
      match drawBarsEvents offs data w rest with
      | Except.error (e, tr) =>
          Except.error (e, Event.bar ((offs.getD i 0 : ℕ) : ℚ) v w :: tr)
      | Except.ok tr => Except.ok (Event.bar ((offs.getD i 0 : ℕ) : ℚ) v w :: tr)

/-- The max-value line block of plot.py:153-158: when `show_max_val` is
set, `max_val` is overridden to `100` in percent mode, and a dashed line is
drawn from `min(offsets) - 1` to `max(offsets) + 1` at height `max_val`
(Python `min`/`max` raise on an empty `offsets`). -/
def maxValStep (cfg : Config) (p : Pre) : Except Err (Option ℚ × List Event) :=
  if cfg.show_max_val then
    let mv : ℚ := if cfg.show_as_percent then 100 else p.maxVal
    match pythonMinNat p.offsets, pythonMaxNat p.offsets with
    | some lo, some hi =>
        Except.ok (some mv, [Event.plotLine [(lo : ℚ) - 1, (hi : ℚ) + 1] [mv, mv]])
    | _, _ => Except.error Err.minMaxOfEmpty
  else Except.ok (Option.none, [])

/-- The text loop of plot.py:174-175:
`plt.text(x=offsets[i], y=data[i] + y_offset, s=fmt(data[i]))` for
`i in range(len(labels))`.  The left operand `data[i]` is evaluated first
(numpy `IndexError` when out of range); then the name `y_offset` is looked
up and raises `NameError` when it was never assigned — which is the case
whenever `scale_by` is `None` (plot.py:171-172). -/
def textLoop (offs : List ℕ) (data : List ℚ) (yOff : Option ℚ)
    (fmt : ℚ → String) :
    List ℕ → Except (Err × List Event) (List (ℚ × ℚ × String) × List Event)
  | [] => Except.ok ([], [])
  | i :: rest =>
    match data[i]? with
    | Option.none => Except.error (Err.indexError, [])
    | some v =>
      match yOff with
      | Option.none => Except.error (Err.nameError ("y_offset"), [])
      | some yo =>
        match textLoop offs data yOff fmt rest with
        | Except.error (e, tr) =>
            Except.error (e, Event.text ((offs.getD i 0 : ℕ) : ℚ) (v + yo) (fmt v) :: tr)
        | Except.ok (ts, tr) =>
            Except.ok ((((offs.getD i 0 : ℕ) : ℚ), v + yo, fmt v) :: ts,
                       Event.text ((offs.getD i 0 : ℕ) : ℚ) (v + yo) (fmt v) :: tr)

/-- The bar-label block of plot.py:161-175: validate `bar_label_format`
(only now — after the figure and bars exist), pick the formatting function
(plain stringification by default), set `y_offset = 0.05` only when a scale
factor was supplied, and run the text loop. -/
def barTextsStep (cfg : Config) (p : Pre) :
    Except (Err × List Event) (List (ℚ × ℚ × String) × List Event) :=
  if cfg.show_bar_labels then
    match checkBarLabelFormat cfg.bar_label_format with
    | Except.error e => Except.error (e, [])
    | Except.ok _ =>
      let fmt : ℚ → String :=
        match cfg.bar_label_format with
        | BarLabelFormat.fn f => f
        | _ => fun x => toString x
      let yOff : Option ℚ :=
        if cfg.scale_by.isNone then Option.none else some (1 / 20)
      textLoop p.offsets p.dataP yOff fmt (List.range p.offsets.length)
  else Except.ok ([], [])

/-- The y-limit resolution of plot.py:178-179: a (percent-adjusted)
caller-supplied `ylim` is used verbatim; otherwise
`(0, max(data) + max(data) * max_val_pad)` over the final data (Python
`max` raises on an empty sequence). -/
def ylimStep (cfg : Config) (p : Pre) : Except Err (ℚ × ℚ) :=
  match p.ylimAdj with
  | some ab => Except.ok ab
  | Option.none =>
    match pythonMax p.dataP with
    | some m => Except.ok (0, m + m * cfg.max_val_pad)
    | Option.none => Except.error Err.maxOfEmpty

/-- The bar-drawing block of plot.py:146-150: one `ax.bar` call per entry
in the multicolor branch, a single `ax.bar(offsets, data, bar_width)` call
otherwise. -/
def drawAllBars (multicolor : Bool) (offs : List ℕ) (data : List ℚ) (w : ℚ) :
    Except (Err × List Event) (List Event) :=
  if multicolor then drawBarsEvents offs data w (List.range offs.length)
  else Except.ok [Event.barSeries (offs.map (fun i => (i : ℚ))) data w]

/-- The rendering phase of `bars` (plot.py:143-209), in source order:
create the figure, draw the bars, draw the max-value line, draw the per-bar
texts, resolve the y-limits, then set limits, ticks, tick labels with their
rotation, legend, title, and finally save and show.  Errors carry the trace
of rendering calls already made. -/
def render (cfg : Config) (p : Pre) : Except (Err × List Event) Output :=
  match drawAllBars cfg.multicolor p.offsets p.dataP cfg.bar_width with
  | Except.error etr => Except.error (etr.1, [Event.figure cfg.figsize] ++ etr.2)
  | Except.ok trBars =>
  let tr1 := [Event.figure cfg.figsize] ++ trBars
  match maxValStep cfg p with
  | Except.error e => Except.error (e, tr1)
  | Except.ok mt =>
  let maxLine := mt.1
  let tr2 := tr1 ++ mt.2
  match barTextsStep cfg p with
  | Except.error etr => Except.error (etr.1, tr2 ++ etr.2)
  | Except.ok tt =>
  let texts := tt.1
  let tr3 := tr2 ++ tt.2
  match ylimStep cfg p with
  | Except.error e => Except.error (e, tr3)
  | Except.ok yl =>
  let xl : ℚ × ℚ := (-cfg.bar_width, ((p.dataP.length : ℚ) - 1) + cfg.bar_width)
  let tr4 := tr3 ++ [Event.setYlim yl.1 yl.2, Event.setXlim xl.1 xl.2,
                     Event.setXticks (p.offsets.map (fun i => (i : ℚ))),
                     Event.tickParams (max cfg.figsize.1 cfg.figsize.2)]
  let tr5 := tr4 ++
    (match p.bottomLabels with
     | some bl => [Event.setXtickLabels bl, Event.setRotation (p.rotation.getD 0)]
     | Option.none => [Event.setXtickLabels (p.dataP.map (fun _ => ""))])
  let tr6 := tr5 ++ (if cfg.show_legend then [Event.legend] else [])
  let tr7 := tr6 ++ [Event.suptitle cfg.title (max cfg.figsize.1 cfg.figsize.2 * 2)]
  let tr8 := tr7 ++ (if cfg.save then [Event.savefig (cfg.save_name.getD cfg.title)] else [])
  let tr9 := tr8 ++ (if cfg.showFlag then [Event.showFig] else [])
  Except.ok { dataReordered := p.dataR, dataScaled := p.dataS,
              dataFinal := p.dataP, maxValRef := p.maxVal,
              offsets := p.offsets, bottomLabels := p.bottomLabels,
              labelRotation := p.rotation, ylimFinal := yl, xlim := xl,
              maxValLine := maxLine, barTexts := texts, trace := tr9 }

/-- The whole of `bars` (plot.py:21-209): the pure prefix followed by the
rendering phase.  An error is returned together with the list of rendering
calls made before it was raised — empty exactly when the error precedes
every rendering side effect. -/
def bars (cfg : Config) : Except (Err × List Event) Output :=
  match preprocess cfg with
  | Except.error e => Except.error (e, [])
  | Except.ok p => render cfg p

/-- Whether an `Except` result is a success. -/
def isOkB : Except ε α → Bool
  | Except.ok _ => true
  | Except.error _ => false

/-! ### Helper lemmas -/

/-- Successful fancy indexing returns as many elements as there are
indices. -/
theorem npTake_length {l : List α} {idx : List Int} {r : List α}
    (h : npTake l idx = Except.ok r) : r.length = idx.length := by
  induction idx generalizing r with
  | nil =>
    simp only [npTake] at h
    cases h
    rfl
  | cons i rest ih =>
    simp only [npTake] at h
    cases hg : npGet l i with
    | none => rw [hg] at h; cases h
    | some v =>
      rw [hg] at h
      cases hr : npTake l rest with
      | error e => rw [hr] at h; cases h
      | ok rs =>
        rw [hr] at h
        cases h
        simp [ih hr]

/-- A successful reorder with `sort_by = None` is the identity. -/
theorem reorderStage_none {data : List ℚ} {labels : Option (List String)} :
    reorderStage data labels SortBy.none = Except.ok (data, labels) := rfl

/-- A successful reorder of the 0-d labels array (`labels=None`) is only
possible when no reordering happens at all. -/
theorem reorderStage_ok_labels {data : List ℚ} {sb : SortBy}
    {d : List ℚ} {lr : Option (List String)}
    (h : reorderStage data Option.none sb = Except.ok (d, lr)) :
    lr = Option.none := by
  cases sb with
  | none => simp [reorderStage] at h; exact h.2.symm
  | str s =>
    simp only [reorderStage] at h
    rcases ht : npTake data (if s.toLower = "descending"
        then (argsort data).reverse else argsort data) with e | d2
    · rw [ht] at h; cases h
    · rw [ht] at h; simp [npTakeLabels] at h
  | seq idx =>
    simp only [reorderStage] at h
    rcases ht : npTake data idx with e | d2
    · rw [ht] at h; cases h
    · rw [ht] at h; simp [npTakeLabels] at h
  | invalid => cases h

/-- A successful reorder with an explicit index sequence is exactly fancy
indexing of the data with that sequence. -/
theorem reorderStage_seq_ok {data : List ℚ} {labels : Option (List String)}
    {idx : List Int} {d : List ℚ} {lr : Option (List String)}
    (h : reorderStage data labels (SortBy.seq idx) = Except.ok (d, lr)) :
    npTake data idx = Except.ok d := by
  simp only [reorderStage] at h
  rcases ht : npTake data idx with e | d2
  · rw [ht] at h; cases h
  · rw [ht] at h
    rcases hl : npTakeLabels labels idx with e | lr2
    · rw [hl] at h; cases h
    · rw [hl] at h
      cases h
      rfl

/-- Inversion of the pure prefix: a successful `preprocess` run determines
every `Pre` field through the stage functions, in source order. -/
theorem preprocess_ok {cfg : Config} {p : Pre}
    (h : preprocess cfg = Except.ok p) :
    ∃ (lr : Option (List String)) (n : ℕ),
      checkSortBy cfg.sort_by = Except.ok () ∧
      reorderStage cfg.data cfg.labels cfg.sort_by = Except.ok (p.dataR, lr) ∧
      bottomStage cfg.show_bottom_labels p.dataR lr =
        Except.ok (p.bottomLabels, p.rotation) ∧
      scaleStage p.dataR cfg.scale_by = Except.ok (p.dataS, p.maxVal) ∧
      npLen lr = Except.ok n ∧
      p.offsets = List.range n ∧
      p.dataP = (percentStage p.dataS cfg.ylim cfg.show_as_percent).1 ∧
      p.ylimAdj = (percentStage p.dataS cfg.ylim cfg.show_as_percent).2 := by
  unfold preprocess at h
  split at h
  · cases h
  split at h
  · cases h
  split at h
  · cases h
  split at h
  · cases h
  split at h
  · cases h
  split at h
  · cases h
  cases h
  rename_i x5 u1 hsort x4 dR lR hre x3 u2 hchk x2 bl rot hbot x1 dS mV hsc x0 n hn
  exact ⟨lR, n, hsort, hre, hbot, hsc, hn, rfl, rfl, rfl⟩

/-- The `max_val` line, when the step succeeds, sits at `100` in percent
mode and at the normalizer's `max_val` otherwise. -/
theorem maxValStep_ok {cfg : Config} {p : Pre} {mt : Option ℚ × List Event}
    (h : maxValStep cfg p = Except.ok mt) :
    mt.1 = if cfg.show_max_val
         then some (if cfg.show_as_percent then (100 : ℚ) else p.maxVal)
         else Option.none := by
  unfold maxValStep at h
  by_cases hs : cfg.show_max_val
  · simp only [hs, if_true] at h ⊢
    rcases hlo : pythonMinNat p.offsets with _ | lo
    · rw [hlo] at h; cases h
    · rw [hlo] at h
      rcases hhi : pythonMaxNat p.offsets with _ | hi
      · rw [hhi] at h; cases h
      · rw [hhi] at h
        cases h
        rfl
  · simp only [hs, if_false] at h ⊢
    simp only [Bool.false_eq_true, if_false] at h
    cases h
    rfl

/-- Inversion of the rendering phase: a successful `render` run copies the
`Pre` fields into the output, resolves the y-limits through `ylimStep`,
sets the x-limits from the final data length and the bar width, and places
the max-value line according to `show_max_val` and percent mode. -/
theorem render_ok {cfg : Config} {p : Pre} {out : Output}
    (h : render cfg p = Except.ok out) :
    out.dataReordered = p.dataR ∧ out.dataScaled = p.dataS ∧
    out.dataFinal = p.dataP ∧ out.maxValRef = p.maxVal ∧
    out.offsets = p.offsets ∧ out.bottomLabels = p.bottomLabels ∧
    out.labelRotation = p.rotation ∧
    ylimStep cfg p = Except.ok out.ylimFinal ∧
    out.xlim = (-cfg.bar_width, ((p.dataP.length : ℚ) - 1) + cfg.bar_width) ∧
    out.maxValLine = (if cfg.show_max_val
        then some (if cfg.show_as_percent then (100 : ℚ) else p.maxVal)
        else Option.none) := by
  unfold render at h
  rcases hb : drawAllBars cfg.multicolor p.offsets p.dataP cfg.bar_width with etr | trBars
  · rw [hb] at h
    cases h
  · rw [hb] at h
    repeat' split at h
    all_goals cases h
    all_goals
      exact ⟨rfl, rfl, rfl, rfl, rfl, rfl, rfl, by assumption, rfl,
             maxValStep_ok (by assumption)⟩

/-- The only error the multicolor bar loop can raise is an out-of-range
index of `data`. -/
theorem drawBarsEvents_error {offs : List ℕ} {data : List ℚ} {w : ℚ}
    {is : List ℕ} {e : Err} {tr : List Event}
    (h : drawBarsEvents offs data w is = Except.error (e, tr)) :
    e = Err.indexError := by
  induction is generalizing tr with
  | nil => cases h
  | cons i rest ih =>
    simp only [drawBarsEvents] at h
    cases hg : data[i]? with
    | none => rw [hg] at h; cases h; rfl
    | some v =>
      rw [hg] at h
      cases hr : drawBarsEvents offs data w rest with
      | error et =>
        rw [hr] at h
        cases h
        exact ih hr
      | ok t => rw [hr] at h; cases h

/-- The only error the bar-drawing block can raise is an out-of-range
index. -/
theorem drawAllBars_error {mc : Bool} {offs : List ℕ} {data : List ℚ}
    {w : ℚ} {et : Err × List Event}
    (h : drawAllBars mc offs data w = Except.error et) :
    et.1 = Err.indexError := by
  unfold drawAllBars at h
  cases mc with
  | false => simp at h
  | true =>
    simp only [if_true] at h
    obtain ⟨e, tr⟩ := et
    exact drawBarsEvents_error h

/-- The only error the max-value-line block can raise is a `min`/`max` of
an empty offsets list. -/
theorem maxValStep_error {cfg : Config} {p : Pre} {e : Err}
    (h : maxValStep cfg p = Except.error e) : e = Err.minMaxOfEmpty := by
  unfold maxValStep at h
  split at h
  · rcases hlo : pythonMinNat p.offsets with _ | lo <;> rw [hlo] at h
    · rcases hhi : pythonMaxNat p.offsets with _ | hi <;> rw [hhi] at h
      · cases h; rfl
      · cases h; rfl
    · rcases hhi : pythonMaxNat p.offsets with _ | hi <;> rw [hhi] at h
      · cases h; rfl
      · cases h
  · cases h

/-- The only errors the text loop can raise are an out-of-range index of
`data` and the unbound `y_offset` name. -/
theorem textLoop_error {offs : List ℕ} {data : List ℚ} {yOff : Option ℚ}
    {fmt : ℚ → String} {is : List ℕ} {e : Err} {tr : List Event}
    (h : textLoop offs data yOff fmt is = Except.error (e, tr)) :
    e = Err.indexError ∨ e = Err.nameError ("y_offset") := by
  induction is generalizing tr with
  | nil => cases h
  | cons i rest ih =>
    simp only [textLoop] at h
    cases hg : data[i]? with
    | none => rw [hg] at h; cases h; exact Or.inl rfl
    | some v =>
      rw [hg] at h
      cases yOff with
      | none => cases h; exact Or.inr rfl
      | some yo =>
        cases hr : textLoop offs data (some yo) fmt rest with
        | error et =>
          rw [hr] at h
          cases h
          exact ih hr
        | ok t => rw [hr] at h; cases h

/-- The only errors the bar-label block can raise are an invalid
`bar_label_format`, an out-of-range index, and the unbound `y_offset`
name. -/
theorem barTextsStep_error {cfg : Config} {p : Pre} {et : Err × List Event}
    (h : barTextsStep cfg p = Except.error et) :
    et.1 = Err.configurationError ("bar_label_format") ∨
    et.1 = Err.indexError ∨ et.1 = Err.nameError ("y_offset") := by
  obtain ⟨e, tr⟩ := et
  unfold barTextsStep at h
  split at h
  · cases hc : checkBarLabelFormat cfg.bar_label_format with
    | error ec =>
      rw [hc] at h
      cases h
      cases hf : cfg.bar_label_format <;> rw [hf] at hc
      · cases hc
      · cases hc
      · cases hc; exact Or.inl rfl
    | ok u =>
      rw [hc] at h
      exact Or.inr (textLoop_error h)
  · cases h

/-- The only error the y-limit autoscale can raise is a `max` over empty
data. -/
theorem ylimStep_error {cfg : Config} {p : Pre} {e : Err}
    (h : ylimStep cfg p = Except.error e) : e = Err.maxOfEmpty := by
  unfold ylimStep at h
  split at h
  · cases h
  · rcases hm : pythonMax p.dataP with _ | m <;> rw [hm] at h
    · cases h; rfl
    · cases h

/-- Every error escaping the rendering phase carries a nonempty trace (the
figure has already been created) and is never an invalid `sort_by` or a
label/data length mismatch — those can only arise in the pure prefix. -/
theorem render_error {cfg : Config} {p : Pre} {e : Err} {tr : List Event}
    (h : render cfg p = Except.error (e, tr)) :
    tr ≠ [] ∧ e ≠ Err.configurationError ("sort_by") ∧
    e ≠ Err.labelMismatchError := by
  unfold render at h
  rcases hb : drawAllBars cfg.multicolor p.offsets p.dataP cfg.bar_width with etr | trBars
  · rw [hb] at h
    cases h
    have he := drawAllBars_error hb
    refine ⟨by simp, ?_, ?_⟩ <;> rw [he] <;> simp
  · rw [hb] at h
    repeat' split at h
    all_goals cases h
    all_goals try contradiction
    all_goals refine ⟨by simp, ?_, ?_⟩
    all_goals intro hc
    all_goals first
      | exact absurd (hc.symm.trans (maxValStep_error (by assumption))) (by decide)
      | exact absurd (hc.symm.trans (ylimStep_error (by assumption))) (by decide)
      | (rcases barTextsStep_error (by assumption) with h1 | h1 | h1 <;>
           exact absurd (hc.symm.trans h1) (by decide))

/-- The only error fancy indexing can raise is an out-of-range index. -/
theorem npTake_error {l : List α} {idx : List Int} {e : Err}
    (h : npTake l idx = Except.error e) : e = Err.indexError := by
  induction idx with
  | nil => cases h
  | cons i rest ih =>
    simp only [npTake] at h
    cases hg : npGet l i with
    | none => rw [hg] at h; cases h; rfl
    | some v =>
      rw [hg] at h
      cases hr : npTake l rest with
      | error e2 => rw [hr] at h; cases h; exact ih hr
      | ok r => rw [hr] at h; cases h

/-- The only error fancy indexing of the labels array can raise is an
index error (including the 0-d case). -/
theorem npTakeLabels_error {labels : Option (List String)} {idx : List Int}
    {e : Err} (h : npTakeLabels labels idx = Except.error e) :
    e = Err.indexError := by
  cases labels with
  | none => cases h; rfl
  | some ls =>
    simp only [npTakeLabels] at h
    cases ht : npTake ls idx with
    | error e2 =>
      rw [ht] at h
      simp only [Except.map] at h
      cases h
      exact npTake_error ht
    | ok r =>
      rw [ht] at h
      simp only [Except.map] at h
      cases h

/-- The only errors the sort block can raise are an invalid `sort_by` and
an indexing error. -/
theorem reorderStage_error {data : List ℚ} {labels : Option (List String)}
    {sb : SortBy} {e : Err}
    (h : reorderStage data labels sb = Except.error e) :
    e = Err.configurationError ("sort_by") ∨ e = Err.indexError := by
  cases sb with
  | none => cases h
  | invalid => cases h; exact Or.inl rfl
  | str s =>
    simp only [reorderStage] at h
    rcases ht : npTake data (if s.toLower = "descending"
        then (argsort data).reverse else argsort data) with e2 | d2 <;> rw [ht] at h
    · cases h; exact Or.inr (npTake_error ht)
    · cases hl : npTakeLabels labels (if s.toLower = "descending"
          then (argsort data).reverse else argsort data) with
      | error e3 =>
        rw [hl] at h; cases h
        exact Or.inr (npTakeLabels_error hl)
      | ok lr => rw [hl] at h; cases h
  | seq idx =>
    simp only [reorderStage] at h
    rcases ht : npTake data idx with e2 | d2 <;> rw [ht] at h
    · cases h; exact Or.inr (npTake_error ht)
    · cases hl : npTakeLabels labels idx with
      | error e3 =>
        rw [hl] at h; cases h
        exact Or.inr (npTakeLabels_error hl)
      | ok lr => rw [hl] at h; cases h

/-- The only error `len(labels)` can raise is the unsized-array
`TypeError`. -/
theorem npLen_error {labels : Option (List String)} {e : Err}
    (h : npLen labels = Except.error e) : e = Err.typeErrorUnsized := by
  cases labels with
  | none => cases h; rfl
  | some ls => cases h

/-- The only error `util.check_parameter` on `sort_by` can raise is the
`sort_by` configuration error. -/
theorem checkSortBy_error {sb : SortBy} {e : Err}
    (h : checkSortBy sb = Except.error e) :
    e = Err.configurationError ("sort_by") := by
  cases sb with
  | none => cases h
  | seq idx => cases h
  | invalid => cases h; rfl
  | str s =>
    simp only [checkSortBy] at h
    split at h
    · cases h
    · cases h; rfl

/-- The validation of `labels` at plot.py:105 never fails: the value is
always an ndarray by then. -/
theorem checkLabels_never (l : Option (List String)) (e : Err) :
    checkLabels l ≠ Except.error e := by
  intro h
  cases h

/-- The only errors the bottom-label block can raise are `len()` of the
unsized labels array and the label/data length mismatch. -/
theorem bottomStage_error {sb : Bool} {dataR : List ℚ}
    {labelsR : Option (List String)} {e : Err}
    (h : bottomStage sb dataR labelsR = Except.error e) :
    e = Err.typeErrorUnsized ∨ e = Err.labelMismatchError := by
  unfold bottomStage at h
  split at h
  · cases labelsR with
    | none =>
      simp only [npLen] at h
      cases h
      exact Or.inl rfl
    | some ls =>
      simp only [npLen] at h
      split at h
      · cases h
      · cases h; exact Or.inr rfl
  · cases h

/-- The only errors the normalization block can raise are `max` of an
empty array and a broadcast failure. -/
theorem scaleStage_error {dataR : List ℚ} {sb : ScaleBy} {e : Err}
    (h : scaleStage dataR sb = Except.error e) :
    e = Err.maxOfEmpty ∨ e = Err.shapeError := by
  cases sb with
  | none =>
    simp only [scaleStage] at h
    rcases hm : pythonMax dataR with _ | m <;> rw [hm] at h
    · cases h; exact Or.inl rfl
    · cases h
  | scalar c => cases h
  | seq s =>
    simp only [scaleStage] at h
    cases hb : broadcastDiv dataR s with
    | error e2 =>
      rw [hb] at h; cases h
      unfold broadcastDiv at hb
      split at hb
      · cases hb
      · split at hb
        · cases hb
        · split at hb
          · cases hb
          · cases hb; exact Or.inr rfl
    | ok d => rw [hb] at h; cases h

/-- Every error escaping the pure prefix is one of the pre-rendering
failures; in particular it is never the invalid-`bar_label_format`
configuration error, which is only detected during rendering. -/
theorem preprocess_error {cfg : Config} {e : Err}
    (h : preprocess cfg = Except.error e) :
    e ≠ Err.configurationError ("bar_label_format") := by
  unfold preprocess at h
  repeat' split at h
  all_goals cases h
  all_goals intro hc
  all_goals subst hc
  all_goals first
    | exact absurd (by assumption) (checkLabels_never _ _)
    | exact absurd (checkSortBy_error (by assumption)) (by decide)
    | exact absurd (npLen_error (by assumption)) (by decide)
    | (rcases reorderStage_error (by assumption) with h1 | h1 <;>
         exact absurd h1 (by decide))
    | (rcases bottomStage_error (by assumption) with h1 | h1 <;>
         exact absurd h1 (by decide))
    | (rcases scaleStage_error (by assumption) with h1 | h1 <;>
         exact absurd h1 (by decide))

/-- Without a scale factor the normalization block keeps the data and
returns its maximum as `max_val`. -/
theorem scaleStage_ok_none {d ds : List ℚ} {mv : ℚ}
    (h : scaleStage d ScaleBy.none = Except.ok (ds, mv)) :
    ds = d ∧ pythonMax d = some mv := by
  simp only [scaleStage] at h
  rcases hm : pythonMax d with _ | m <;> rw [hm] at h
  · cases h
  · cases h
    exact ⟨rfl, rfl⟩

/-- With a scale factor the normalization block always returns
`max_val = 1`. -/
theorem scaleStage_ok_scaled {d ds : List ℚ} {sb : ScaleBy} {mv : ℚ}
    (hsb : sb ≠ ScaleBy.none) (h : scaleStage d sb = Except.ok (ds, mv)) :
    mv = 1 := by
  cases sb with
  | none => exact absurd rfl hsb
  | scalar c =>
    simp only [scaleStage] at h
    cases h
    rfl
  | seq sc =>
    simp only [scaleStage] at h
    cases hb : broadcastDiv d sc with
    | error e => rw [hb] at h; cases h
    | ok d2 => rw [hb] at h; cases h; rfl

/-- When the bottom-label block produces labels, their rotation is 45
degrees for more than 7 labels and 0 otherwise. -/
theorem bottomStage_ok_rotation {sb : Bool} {dataR : List ℚ}
    {labelsR : Option (List String)} {obl : Option (List String)}
    {orot : Option ℚ} {bl : List String}
    (h : bottomStage sb dataR labelsR = Except.ok (obl, orot))
    (hbl : obl = some bl) :
    orot = some (if 7 < bl.length then (45 : ℚ) else 0) := by
  unfold bottomStage at h
  split at h
  · cases labelsR with
    | none => simp only [npLen] at h; cases h
    | some ls =>
      simp only [npLen] at h
      split at h
      · cases h
        cases hbl
        simp
      · cases h
  · cases h
    cases hbl

/-- A successful `bars` call factors into a successful pure prefix and a
successful rendering phase. -/
theorem bars_ok {cfg : Config} {out : Output}
    (h : bars cfg = Except.ok out) :
    ∃ p, preprocess cfg = Except.ok p ∧ render cfg p = Except.ok out := by
  unfold bars at h
  cases hp : preprocess cfg with
  | error e => rw [hp] at h; cases h
  | ok p =>
    rw [hp] at h
    exact ⟨p, rfl, h⟩

/-- A failing `bars` call failed either in the pure prefix — with an empty
trace of rendering calls — or during rendering. -/
theorem bars_error {cfg : Config} {e : Err} {tr : List Event}
    (h : bars cfg = Except.error (e, tr)) :
    (preprocess cfg = Except.error e ∧ tr = []) ∨
    (∃ p, preprocess cfg = Except.ok p ∧ render cfg p = Except.error (e, tr)) := by
  unfold bars at h
  cases hp : preprocess cfg with
  | error e2 =>
    rw [hp] at h
    cases h
    exact Or.inl ⟨rfl, rfl⟩
  | ok p =>
    rw [hp] at h
    exact Or.inr ⟨p, rfl, h⟩

/-- A caller-determined (possibly percent-scaled) y-limit pair is used
verbatim. -/
theorem ylimStep_some (cfg : Config) {p : Pre} {ab : ℚ × ℚ}
    (h : p.ylimAdj = some ab) : ylimStep cfg p = Except.ok ab := by
  unfold ylimStep
  rw [h]

/-- A successful autoscale (no caller y-limits) returns
`(0, max + max * pad)` over the final data. -/
theorem ylimStep_none_ok {cfg : Config} {p : Pre} {yl : ℚ × ℚ}
    (ha : p.ylimAdj = Option.none) (h : ylimStep cfg p = Except.ok yl) :
    ∃ m, pythonMax p.dataP = some m ∧ yl = (0, m + m * cfg.max_val_pad) := by
  unfold ylimStep at h
  rw [ha] at h
  rcases hm : pythonMax p.dataP with _ | m <;> rw [hm] at h
  · cases h
  · cases h
    exact ⟨m, rfl, rfl⟩

/-! ### Claims -/

/-- Concrete counterexample input for C1: a scale factor together with
percent mode and the reference line. -/
def cfgC1x : Config :=
  { data := [50, 50], labels := some ["a", "b"],
    scale_by := ScaleBy.scalar 100, show_max_val := true,
    show_as_percent := true }

/-- C1 (counterexample).  The claim says that with a scale factor supplied
the reference maximum used for the max-value line is the constant 1.  On
`data=[50,50]`, `scale_by=100`, `show_max_val=True`, `show_as_percent=True`
the call succeeds and draws the max-value line at 100, not at 1: percent
mode overrides the scale-derived reference (plot.py:154). -/
theorem c1_counterexample :
    (bars cfgC1x).map Output.maxValLine = Except.ok (some 100) ∧
    some (100 : ℚ) ≠ some (1 : ℚ) :=
  ⟨rfl, by decide⟩

/-- C1 (amended).  For every successful call: with no scale factor the
data is unchanged by normalization and the reference maximum is the
maximum of the (reordered) values; with a scale factor the reference
maximum is the constant 1 and the scaled data is the element-wise division
performed by `scaleStage`; and the max-value line, when requested, is
drawn at that reference maximum only when percent mode is off — percent
mode forces it to 100. -/
theorem c1_scale_sets_reference (cfg : Config) (out : Output)
    (h : bars cfg = Except.ok out) :
    (cfg.scale_by = ScaleBy.none →
      out.dataScaled = out.dataReordered ∧
      pythonMax out.dataReordered = some out.maxValRef) ∧
    (cfg.scale_by ≠ ScaleBy.none →
      out.maxValRef = 1 ∧
      scaleStage out.dataReordered cfg.scale_by =
        Except.ok (out.dataScaled, out.maxValRef)) ∧
    (cfg.show_max_val = true →
      out.maxValLine =
        some (if cfg.show_as_percent then (100 : ℚ) else out.maxValRef)) := by
  obtain ⟨p, hp, hr⟩ := bars_ok h
  obtain ⟨lr, n, hsort, hre, hbot, hsc, hn, hoff, hdp, hyl⟩ := preprocess_ok hp
  obtain ⟨e1, e2, e3, e4, e5, e6, e7, e8, e9, e10⟩ := render_ok hr
  refine ⟨?_, ?_, ?_⟩
  · intro hnone
    rw [e1, e2, e4]
    rw [hnone] at hsc
    obtain ⟨hds, hm⟩ := scaleStage_ok_none hsc
    exact ⟨hds, hm⟩
  · intro hsome
    rw [e1, e2, e4]
    exact ⟨scaleStage_ok_scaled hsome hsc, hsc⟩
  · intro hmv
    rw [e10, e4, hmv]
    simp

/-- Witness input for C1: a scale factor with the reference line shown and
percent mode off. -/
def cfgW1 : Config :=
  { data := [2, 4], labels := some ["a", "b"],
    scale_by := ScaleBy.scalar 2, show_max_val := true }

/-- Witness for C1: on `data=[2,4]`, `scale_by=2`, `show_max_val=True` the
max-value line is drawn at the constant 1. -/
theorem c1_scale_sets_reference_witness :
    (bars cfgW1).map Output.maxValLine = Except.ok (some 1) := by
  cases h : bars cfgW1 with
  | error et =>
    have hok : isOkB (bars cfgW1) = true := rfl
    rw [h] at hok
    simp [isOkB] at hok
  | ok out =>
    have hc := c1_scale_sets_reference cfgW1 out h
    have hmv := hc.2.1 (by decide)
    have hl := hc.2.2 rfl
    rw [show cfgW1.show_as_percent = false from rfl] at hl
    simp only [Bool.false_eq_true, if_false] at hl
    rw [hmv.1] at hl
    simp [Except.map, hl]

/-- Witness input for C2: percent mode with caller y-limits and the
reference line. -/
def cfgW2 : Config :=
  { data := [10, 20, 30], labels := some ["a", "b", "c"],
    ylim := some (0, 1 / 2), show_as_percent := true,
    show_max_val := true }

/-- C2 (confirmed).  For every successful call with `show_as_percent`:
the final data is the (possibly scaled) data multiplied by 100, a
caller-supplied y-limit pair has both bounds multiplied by 100, and the
max-value line, when requested, is drawn at 100 regardless of the scale
factor and of the data's maximum. -/
theorem c2_percent_mode (cfg : Config) (out : Output)
    (h : bars cfg = Except.ok out) (hpc : cfg.show_as_percent = true) :
    out.dataFinal = out.dataScaled.map (fun a => a * 100) ∧
    (∀ a b, cfg.ylim = some (a, b) → out.ylimFinal = (a * 100, b * 100)) ∧
    (cfg.show_max_val = true → out.maxValLine = some 100) := by
  obtain ⟨p, hp, hr⟩ := bars_ok h
  obtain ⟨lr, n, hsort, hre, hbot, hsc, hn, hoff, hdp, hyl⟩ := preprocess_ok hp
  obtain ⟨e1, e2, e3, e4, e5, e6, e7, e8, e9, e10⟩ := render_ok hr
  refine ⟨?_, ?_, ?_⟩
  · rw [e3, e2, hdp, hpc]
    simp [percentStage]
  · intro a b hab
    rw [hpc, hab] at hyl
    simp only [percentStage, if_true, Option.map_some] at hyl
    have h9 : out.ylimFinal = ((a, b).1 * 100, (a, b).2 * 100) := by
      injection e8.symm.trans (ylimStep_some cfg hyl)
    simpa using h9
  · intro hmv
    rw [e10, hmv, hpc]
    simp

/-- Witness for C2: on `data=[10,20,30]`, `ylim=(0,0.5)`,
`show_as_percent=True`, `show_max_val=True` the y-limits become `(0, 50)`
and the max-value line sits at 100. -/
theorem c2_percent_mode_witness :
    (bars cfgW2).map (fun o => (o.ylimFinal, o.maxValLine)) =
      Except.ok ((0, 50), some 100) := by
  cases h : bars cfgW2 with
  | error et =>
    have hok : isOkB (bars cfgW2) = true := rfl
    rw [h] at hok
    simp [isOkB] at hok
  | ok out =>
    have hc := c2_percent_mode cfgW2 out h rfl
    have hyl := hc.2.1 0 (1 / 2) rfl
    have hml := hc.2.2 rfl
    simp only [Except.map]
    rw [hyl, hml]
    norm_num

/-- Witness input for C3: autoscaled y-limits. -/
def cfgW3 : Config :=
  { data := [1, 2], labels := some ["a", "b"] }

/-- C3 (confirmed).  For every successful call: an explicit `ylim` is used
exactly (multiplied by 100 first when percent mode is on), and an absent
`ylim` autoscales to `(0, max * (1 + max_val_pad))` over the final
(scaled/percent-converted) data. -/
theorem c3_ylim (cfg : Config) (out : Output)
    (h : bars cfg = Except.ok out) :
    (∀ a b, cfg.ylim = some (a, b) →
      out.ylimFinal =
        if cfg.show_as_percent then (a * 100, b * 100) else (a, b)) ∧
    (cfg.ylim = Option.none →
      ∃ m, pythonMax out.dataFinal = some m ∧
        out.ylimFinal = (0, m * (1 + cfg.max_val_pad))) := by
  obtain ⟨p, hp, hr⟩ := bars_ok h
  obtain ⟨lr, n, hsort, hre, hbot, hsc, hn, hoff, hdp, hyl⟩ := preprocess_ok hp
  obtain ⟨e1, e2, e3, e4, e5, e6, e7, e8, e9, e10⟩ := render_ok hr
  constructor
  · intro a b hab
    rw [hab] at hyl
    by_cases hpc : cfg.show_as_percent
    · rw [hpc] at hyl ⊢
      simp only [percentStage, if_true, Option.map_some] at hyl
      have h9 : out.ylimFinal = ((a, b).1 * 100, (a, b).2 * 100) := by
        injection e8.symm.trans (ylimStep_some cfg hyl)
      simpa using h9
    · rw [if_neg hpc]
      rw [show cfg.show_as_percent = false from by simpa using hpc] at hyl
      simp only [percentStage, Bool.false_eq_true, if_false] at hyl
      have h9 : out.ylimFinal = (a, b) := by
        injection e8.symm.trans (ylimStep_some cfg hyl)
      exact h9
  · intro hnone
    rw [hnone] at hyl
    have hadj : p.ylimAdj = Option.none := by
      rw [hyl]
      by_cases hpc : cfg.show_as_percent <;> simp [percentStage, hpc]
    obtain ⟨m, hm, hv⟩ := ylimStep_none_ok hadj e8
    refine ⟨m, by rw [e3]; exact hm, ?_⟩
    rw [hv]
    ring_nf

/-- Witness for C3: on `data=[1,2]` with no `ylim` and the default pad of
0.1, the y-limits autoscale to `(0, 2.2)`. -/
theorem c3_ylim_witness :
    (bars cfgW3).map Output.ylimFinal = Except.ok (0, 11 / 5) := by
  cases h : bars cfgW3 with
  | error et =>
    have hok : isOkB (bars cfgW3) = true := rfl
    rw [h] at hok
    simp [isOkB] at hok
  | ok out =>
    obtain ⟨m, hm, hv⟩ := (c3_ylim cfgW3 out h).2 rfl
    have hd : out.dataFinal = [(1 : ℚ), 2] := by
      have h0 : (bars cfgW3).map Output.dataFinal = Except.ok [(1 : ℚ), 2] := rfl
      rw [h] at h0
      simpa [Except.map] using h0
    rw [hd] at hm
    have hm2 : m = 2 := by
      rw [show pythonMax [(1 : ℚ), 2] = some 2 from rfl] at hm
      injection hm with hmx
      exact hmx.symm
    simp only [Except.map]
    rw [hv, hm2]
    norm_num [cfgW3]

/-- Concrete counterexample input for C4: mismatched labels with an
explicit reorder that hides the mismatch. -/
def cfgC4x : Config :=
  { data := [1, 2], labels := some ["a", "b", "c"],
    sort_by := SortBy.seq [0, 1] }

/-- C4 (counterexample).  The claim says every call with bottom labels
shown and `len(labels) != len(data)` fails with `LabelMismatchError`.  But
the length check (plot.py:107) runs after reordering: with `data=[1,2]`,
`labels=['a','b','c']`, `sort_by=[0,1]` the labels are truncated to length
2 by fancy indexing and the call completes without any error. -/
theorem c4_counterexample :
    (["a", "b", "c"] : List String).length ≠ ([(1 : ℚ), 2] : List ℚ).length ∧
    isOkB (bars cfgC4x) = true :=
  ⟨by decide, rfl⟩

/-- C4 (amended).  For every call with bottom labels shown, labels
supplied, and no reordering (`sort_by=None`), a length mismatch between
labels and data fails with the label-mismatch error (the
`ValueError('len(labels) != len(data)')` of plot.py:108, the spec's
`LabelMismatchError`) and the trace of rendering calls at that point is
empty: the failure precedes any rendering side effect.  (With reordering,
the lengths are compared only after both arrays are fancy-indexed.) -/
theorem c4_label_mismatch (cfg : Config) (ls : List String)
    (hsb : cfg.show_bottom_labels = true) (hlab : cfg.labels = some ls)
    (hsort : cfg.sort_by = SortBy.none) (hlen : ls.length ≠ cfg.data.length) :
    bars cfg = Except.error (Err.labelMismatchError, []) := by
  have hpre : preprocess cfg = Except.error Err.labelMismatchError := by
    unfold preprocess
    rw [hsort]
    simp only [checkSortBy, reorderStage, checkLabels]
    rw [hsb, hlab]
    simp only [bottomStage, npLen, if_true]
    rw [if_neg hlen]
  unfold bars
  rw [hpre]

/-- Witness for C4: `labels=['a','b']`, `data=[1,2,3]` with default
options fails with the label-mismatch error before any rendering call. -/
theorem c4_label_mismatch_witness :
    bars { data := [1, 2, 3], labels := some ["a", "b"] } =
      Except.error (Err.labelMismatchError, []) :=
  c4_label_mismatch _ ["a", "b"] rfl rfl rfl (by decide)

/-- Concrete counterexample input for C5: an explicit index sequence
shorter than the data. -/
def cfgC5x : Config :=
  { data := [1, 2, 3], labels := some ["a", "b", "c"],
    sort_by := SortBy.seq [0] }

/-- C5 (counterexample).  The claim says an explicit `sort_by` sequence
whose length differs from the data fails with `ConfigurationError`.  There
is no such check: with `data=[1,2,3]`, `labels=['a','b','c']`,
`sort_by=[0]` the call succeeds, numpy fancy indexing silently reshaping
the data to the single selected element. -/
theorem c5_counterexample :
    ([0] : List Int).length ≠ ([(1 : ℚ), 2, 3] : List ℚ).length ∧
    (bars cfgC5x).map Output.dataFinal = Except.ok [1] :=
  ⟨by decide, rfl⟩

/-- C5 (amended).  For every successful call with an explicit index
sequence, the displayed data is exactly the fancy indexing of the input
data by that sequence — applied directly, with no validation of any kind
(in particular no length check): the result has one element per index. -/
theorem c5_explicit_sequence (cfg : Config) (idx : List Int) (out : Output)
    (hsb : cfg.sort_by = SortBy.seq idx) (h : bars cfg = Except.ok out) :
    npTake cfg.data idx = Except.ok out.dataReordered ∧
    out.dataReordered.length = idx.length := by
  obtain ⟨p, hp, hr⟩ := bars_ok h
  obtain ⟨lr, n, hsort2, hre, hbot, hsc, hn, hoff, hdp, hyl⟩ := preprocess_ok hp
  obtain ⟨e1, e2, e3, e4, e5, e6, e7, e8, e9, e10⟩ := render_ok hr
  rw [hsb] at hre
  have ht := reorderStage_seq_ok hre
  rw [e1]
  exact ⟨ht, npTake_length ht⟩

/-- Witness input for C5: a matching-length explicit permutation. -/
def cfgW5 : Config :=
  { data := [10, 20], labels := some ["a", "b"],
    sort_by := SortBy.seq [1, 0] }

/-- Witness for C5: `sort_by=[1,0]` on `data=[10,20]` displays the data
reordered to `[20,10]`. -/
theorem c5_explicit_sequence_witness :
    (bars cfgW5).map Output.dataReordered = Except.ok [20, 10] := by
  cases h : bars cfgW5 with
  | error et =>
    have hok : isOkB (bars cfgW5) = true := rfl
    rw [h] at hok
    simp [isOkB] at hok
  | ok out =>
    obtain ⟨h1, h2⟩ := c5_explicit_sequence cfgW5 [1, 0] out rfl h
    rw [show npTake cfgW5.data [1, 0] = Except.ok [(20 : ℚ), 10] from rfl] at h1
    injection h1 with h1e
    simp [Except.map, ← h1e]

/-- Concrete counterexample input for C6: an invalid `bar_label_format`
with bar labels requested. -/
def cfgC6x : Config :=
  { data := [1], labels := some ["a"], show_bar_labels := true,
    bar_label_format := BarLabelFormat.invalid }

/-- C6 (counterexample).  The claim says every configuration error is
raised before any rendering side effect.  An invalid `bar_label_format` is
only validated at plot.py:163, after the figure has been created
(plot.py:144) and the bars drawn: the error's trace already holds the
figure-creation and bar-drawing calls. -/
theorem c6_counterexample :
    bars cfgC6x =
      Except.error (Err.configurationError ("bar_label_format"),
        [Event.figure (12, 8), Event.bar 0 1 (3 / 4)]) ∧
    Event.figure (12, 8) ∈
      [Event.figure (12, 8), Event.bar 0 1 (3 / 4)] :=
  ⟨rfl, by decide⟩

/-- C6 (amended).  For every failing call: an invalid `sort_by` and a
label/data length mismatch are raised with an empty rendering trace
(before any rendering side effect), while an invalid `bar_label_format` is
always raised with a nonempty trace — the figure already exists. -/
theorem c6_error_staging (cfg : Config) (e : Err) (tr : List Event)
    (h : bars cfg = Except.error (e, tr)) :
    (e = Err.configurationError ("sort_by") → tr = []) ∧
    (e = Err.labelMismatchError → tr = []) ∧
    (e = Err.configurationError ("bar_label_format") → tr ≠ []) := by
  rcases bars_error h with ⟨hpre, htr⟩ | ⟨p, hp, hr⟩
  · exact ⟨fun _ => htr, fun _ => htr,
           fun heq => absurd heq (preprocess_error hpre)⟩
  · obtain ⟨htr, hn1, hn2⟩ := render_error hr
    exact ⟨fun heq => absurd heq hn1, fun heq => absurd heq hn2,
           fun _ => htr⟩

/-- Witness input for C6: an invalid `bar_label_format` (with a scale
factor, to show the staging is independent of it). -/
def cfgW6 : Config :=
  { data := [2], labels := some ["b"], show_bar_labels := true,
    bar_label_format := BarLabelFormat.invalid,
    scale_by := ScaleBy.scalar 2 }

/-- Witness for C6: a call failing on `bar_label_format` carries a
nonempty rendering trace. -/
theorem c6_error_staging_witness :
    bars cfgW6 =
      Except.error (Err.configurationError ("bar_label_format"),
        [Event.figure (12, 8), Event.bar 0 1 (3 / 4)]) ∧
    ([Event.figure (12, 8), Event.bar 0 1 (3 / 4)] : List Event) ≠ [] :=
  ⟨by with_unfolding_all rfl,
   (c6_error_staging cfgW6 (Err.configurationError ("bar_label_format"))
    [Event.figure (12, 8), Event.bar 0 1 (3 / 4)]
    (by with_unfolding_all rfl)).2.2 rfl⟩

/-- Concrete counterexample input for C7: one data point against a longer
broadcast divisor. -/
def cfgC7x : Config :=
  { data := [5], labels := some ["a"], scale_by := ScaleBy.seq [1, 2, 3] }

/-- C7 (counterexample).  The claim says that with N data points the
x-limits are `(-bar_width, (N-1)+bar_width)` independent of scaling.  With
`data=[5]` (N = 1) and `scale_by=[1,2,3]`, numpy broadcasting stretches
the data to length 3, and `set_xlim` (plot.py:183) uses that final length:
the call succeeds with x-limits `(-0.75, 2.75)` instead of the claimed
`(-0.75, 0.75)`. -/
theorem c7_counterexample :
    cfgC7x.data.length = 1 ∧
    (bars cfgC7x).map Output.xlim = Except.ok (-(3 / 4 : ℚ), 11 / 4) ∧
    ((-(3 / 4 : ℚ), (11 : ℚ) / 4) ≠ (-(3 / 4 : ℚ), ((1 : ℚ) - 1) + 3 / 4)) :=
  ⟨rfl, by with_unfolding_all rfl, by with_unfolding_all decide⟩

/-- C7 (amended).  For every successful call the x-limits are exactly
`(-bar_width, (M-1)+bar_width)` where M is the length of the final
transformed data array (which equals the input length except when an
explicit reorder sequence or a broadcast against a longer scale array
changes it); they do not depend on the data values. -/
theorem c7_xlim (cfg : Config) (out : Output)
    (h : bars cfg = Except.ok out) :
    out.xlim =
      (-cfg.bar_width, ((out.dataFinal.length : ℚ) - 1) + cfg.bar_width) := by
  obtain ⟨p, hp, hr⟩ := bars_ok h
  obtain ⟨e1, e2, e3, e4, e5, e6, e7, e8, e9, e10⟩ := render_ok hr
  rw [e9, e3]

/-- Witness input for C7: three bars with the default bar width. -/
def cfgW7 : Config :=
  { data := [1, 2, 3], labels := some ["a", "b", "c"] }

/-- Witness for C7: three data points give x-limits
`(-0.75, 2 + 0.75)`. -/
theorem c7_xlim_witness :
    (bars cfgW7).map Output.xlim = Except.ok (-(3 / 4 : ℚ), 11 / 4) := by
  cases h : bars cfgW7 with
  | error et =>
    have hok : isOkB (bars cfgW7) = true := rfl
    rw [h] at hok
    simp [isOkB] at hok
  | ok out =>
    have hd : out.dataFinal = [(1 : ℚ), 2, 3] := by
      have h0 : (bars cfgW7).map Output.dataFinal =
          Except.ok [(1 : ℚ), 2, 3] := rfl
      rw [h] at h0
      simpa [Except.map] using h0
    have hx := c7_xlim cfgW7 out h
    rw [hd] at hx
    simp only [Except.map]
    rw [hx]
    norm_num [cfgW7]

/-- C8 (confirmed).  For every successful call that shows bottom labels,
the label rotation is exactly 45 degrees when the label count exceeds 7
and exactly 0 degrees otherwise. -/
theorem c8_label_rotation (cfg : Config) (out : Output) (bl : List String)
    (h : bars cfg = Except.ok out) (hbl : out.bottomLabels = some bl) :
    out.labelRotation = some (if 7 < bl.length then (45 : ℚ) else 0) := by
  obtain ⟨p, hp, hr⟩ := bars_ok h
  obtain ⟨lr, n, hsort, hre, hbot, hsc, hn, hoff, hdp, hyl⟩ := preprocess_ok hp
  obtain ⟨e1, e2, e3, e4, e5, e6, e7, e8, e9, e10⟩ := render_ok hr
  rw [e6] at hbl
  rw [e7]
  exact bottomStage_ok_rotation hbot hbl

/-- Witness input for C8: eight labels, one past the rotation
threshold. -/
def cfgW8 : Config :=
  { data := [1, 2, 3, 4, 5, 6, 7, 8],
    labels := some ["a", "b", "c", "d", "e", "f", "g", "h"] }

/-- Witness for C8: with 8 labels the rotation is exactly 45 degrees. -/
theorem c8_label_rotation_witness :
    (bars cfgW8).map Output.labelRotation = Except.ok (some 45) := by
  cases h : bars cfgW8 with
  | error et =>
    have hok : isOkB (bars cfgW8) = true := rfl
    rw [h] at hok
    simp [isOkB] at hok
  | ok out =>
    have h0 : (bars cfgW8).map (fun o => Option.map List.length o.bottomLabels) =
        Except.ok (some 8) := rfl
    rw [h] at h0
    simp only [Except.map] at h0
    injection h0 with h0e
    cases hbl : out.bottomLabels with
    | none => rw [hbl] at h0e; exact Option.noConfusion h0e
    | some bl =>
      rw [hbl] at h0e
      rw [show Option.map List.length (some bl) = some bl.length from rfl] at h0e
      injection h0e with h0l
      have hrt := c8_label_rotation cfgW8 out bl h hbl
      rw [h0l] at hrt
      simp only [Except.map]
      rw [hrt]
      norm_num

/-- C9 (code bug).  The claim (and the spec) say that with
`show_bar_labels` and no scale factor, the annotation lands at the bar's
value with an effectively-zero vertical pad.  In the code `y_offset` is
assigned only when `scale_by is not None` (plot.py:171-172), so the text
call at plot.py:175 reads an unbound local and raises `NameError` after
the figure and bars have been drawn: on `data=[1,2]`,
`labels=['a','b']`, `show_bar_labels=True` no annotation is ever
placed. -/
theorem c9_name_error :
    bars { data := [1, 2], labels := some ["a", "b"],
           show_bar_labels := true } =
      Except.error (Err.nameError ("y_offset"),
        [Event.figure (12, 8), Event.bar 0 1 (3 / 4),
         Event.bar 1 2 (3 / 4)]) :=
  rfl

/-- C10 (confirmed).  Every call that omits `labels` fails:
`np.array(None)` is a 0-d array, never the `None` object, so the
`labels is not None` guard passes, and both the bottom-label branch
(`len(labels)` at plot.py:107) and the x-offset computation
(`len(labels)` at plot.py:134) raise on the unsized array — and under
`sort_by` the fancy indexing of the 0-d array at plot.py:102 raises
first.  No call with `labels=None` completes. -/
theorem c10_labels_omitted (cfg : Config)
    (h : cfg.labels = Option.none) : isOkB (bars cfg) = false := by
  cases hb : bars cfg with
  | error et => simp [isOkB]
  | ok out =>
    exfalso
    obtain ⟨p, hp, hr⟩ := bars_ok hb
    obtain ⟨lr, n, hsort, hre, hbot, hsc, hn, hoff, hdp, hyl⟩ := preprocess_ok hp
    rw [h] at hre
    rw [reorderStage_ok_labels hre] at hn
    cases hn

/-- Witness for C10: the default configuration with `labels` omitted does
not complete. -/
theorem c10_labels_omitted_witness :
    isOkB (bars { data := [1, 2] }) = false :=
  c10_labels_omitted _ rfl

end PlotTools
